import Mathlib

/-!
Verification of the GSTInvoicePro backend: a shallow embedding in Lean 4 of the
tax-computation, invoice-numbering, GSTIN-validation, number-to-words,
PDF-fallback and NIC/IRP JSON codec logic of the repository, together with
theorems settling the specification claims.

Python floats are modelled as exact rationals; nullable columns and Optional
fields as Option; Python truthiness of optional strings via pyTruthyStr.
-/

namespace GSTInvoicePro

/-- Python truthiness of an optional string: None and the empty string are falsy. -/
def pyTruthyStr (s : Option String) : Bool :=
  match s with
  | none => false
  | some t => !t.isEmpty

/-- Python expression a or b for optional strings (a if truthy, else b). -/
def pyOrStr (a b : Option String) : Option String :=
  if pyTruthyStr a then a else b

/-- Python expression v or None for a numeric v: 0 is falsy and becomes None. -/
def pyOrNone (v : ℚ) : Option ℚ :=
  if v = 0 then none else some v

/-- TaxType enum of app/models/invoice.py. -/
inductive TaxType where
  | IGST
  | CGST_SGST
deriving DecidableEq, Repr

/-- DocumentType enum of app/models/invoice.py. -/
inductive DocumentType where
  | INVOICE
  | CREDIT_NOTE
  | DEBIT_NOTE
deriving DecidableEq, Repr

/-- SupplyType enum of app/models/invoice.py. -/
inductive SupplyType where
  | B2B
  | B2C
  | EXPORT_WITH_TAX
  | EXPORT_WITHOUT_TAX
  | SEZ_WITH_TAX
  | SEZ_WITHOUT_TAX
deriving DecidableEq, Repr

/-- InvoiceStatus enum of app/models/invoice.py. -/
inductive InvoiceStatus where
  | DRAFT
  | FINALIZED
  | SENT
  | E_INVOICE
  | GST_FILED
  | ARCHIVED
  | APPROVED
deriving DecidableEq, Repr

/-- PaymentStatus enum of app/models/invoice.py. -/
inductive PaymentStatus where
  | UNPAID
  | PARTIAL
  | PAID
deriving DecidableEq, Repr

/-- A calendar date, standing for the datetime values the endpoints pass around.
The DD/MM/YYYY strftime/strptime pair of the NIC codec is modelled as carrying
the date record through unchanged. -/
structure PyDate where
  day : ℕ
  month : ℕ
  year : ℕ
deriving DecidableEq, Repr

/-- BusinessProfile model (app/models/business_profile.py), the columns the
engine reads. current_invoice_number is the sequential counter. -/
structure BusinessProfile where
  name : String
  gstin : String
  address : String
  state : String
  pin : String
  phone : Option String
  email : Option String
  current_invoice_number : ℕ
deriving DecidableEq, Repr

/-- Customer model (app/models/customer.py), the columns the engine reads. -/
structure Customer where
  name : String
  gstin : Option String
  address : String
  state : String
  country : String
  pincode : String
  email : Option String
  phone : Option String
deriving DecidableEq, Repr

/-- Product model (app/models/product.py), the columns the engine reads. -/
structure Product where
  name : String
  description : Option String
  hsn_sac : Option String
  is_service : Bool
  tax_rate : ℚ
  unit : Option String
deriving DecidableEq, Repr

/-- InvoiceItem model (app/models/invoice.py). Nullable tax columns are
Option valued: the jurisdiction side not populated stays NULL. -/
structure InvoiceItem where
  quantity : ℚ
  rate : ℚ
  tax_rate : ℚ
  tax_amount : ℚ
  subtotal : ℚ
  total : ℚ
  cgst : Option ℚ
  sgst : Option ℚ
  igst : Option ℚ
  tax_type : TaxType
  hsn_sac : Option String
  description : Option String
  discount_percent : ℚ
  discount_amount : ℚ
deriving DecidableEq, Repr

/-- Invoice model (app/models/invoice.py); items carries the owned
InvoiceItem rows of the relationship. -/
structure Invoice where
  invoice_number : String
  invoice_date : PyDate
  subtotal : ℚ
  tax_amount : ℚ
  total : ℚ
  tax_type : TaxType
  cgst_total : Option ℚ
  sgst_total : Option ℚ
  igst_total : Option ℚ
  status : InvoiceStatus
  payment_status : PaymentStatus
  document_type : DocumentType
  supply_type : SupplyType
  discount_amount : ℚ
  round_off : ℚ
  irn : Option String
  is_imported : Bool
  items : List InvoiceItem
deriving DecidableEq, Repr

/-- TaxResult: the dict returned by calculate_tax in app/utils/invoice_utils.py. -/
structure TaxResult where
  tax_amount : ℚ
  cgst : ℚ
  sgst : ℚ
  igst : ℚ
deriving DecidableEq, Repr

/-- calculate_tax from app/utils/invoice_utils.py lines 23 to 43. -/
def calculate_tax (subtotal : ℚ) (tax_rate : ℚ) (tax_type : TaxType) : TaxResult :=
  match tax_type with
  | .IGST =>
      let igst := subtotal * (tax_rate / 100)
      { tax_amount := igst, cgst := 0, sgst := 0, igst := igst }
  | .CGST_SGST =>
      let cgst := subtotal * (tax_rate / 200)
      let sgst := subtotal * (tax_rate / 200)
      { tax_amount := cgst + sgst, cgst := cgst, sgst := sgst, igst := 0 }

/-- InvoiceItemCreate schema (app/schemas/invoice.py): one line-item draft.
The referenced Product is resolved by the endpoint and supplied alongside. -/
structure ItemCreate where
  quantity : ℚ
  rate : ℚ
  hsn_sac : Option String
  description : Option String
  discount_percent : ℚ
  discount_amount : ℚ
deriving DecidableEq, Repr

/-- InvoiceCreate schema (app/schemas/invoice.py): the invoice draft fields the
engine reads. invoice_number models the hasattr probe of create_invoice: the
schema declares no such field, so it is none for API callers. -/
structure InvoiceCreate where
  invoice_date : PyDate
  invoice_number : Option String
  status : Option InvoiceStatus
  payment_status : PaymentStatus
  document_type : DocumentType
  supply_type : SupplyType
  discount_amount : ℚ
  round_off : ℚ
  irn : Option String
  is_imported : Bool
deriving DecidableEq, Repr

/-- One constructed InvoiceItem of create_invoice (invoices.py lines 229 to 288):
subtotal is quantity times rate, and the jurisdiction decides which tax columns
are populated; the other side stays NULL. -/
def mkInvoiceItem (tax_type : TaxType) (pr : ItemCreate × Product) : InvoiceItem :=
  let item_subtotal := pr.1.quantity * pr.1.rate
  match tax_type with
  | .IGST =>
      let igst := item_subtotal * (pr.2.tax_rate / 100)
      { quantity := pr.1.quantity, rate := pr.1.rate, tax_rate := pr.2.tax_rate,
        tax_amount := igst, subtotal := item_subtotal, total := item_subtotal + igst,
        cgst := none, sgst := none, igst := some igst, tax_type := tax_type,
        hsn_sac := pyOrStr pr.1.hsn_sac pr.2.hsn_sac,
        description := pyOrStr pr.1.description pr.2.description,
        discount_percent := pr.1.discount_percent,
        discount_amount := pr.1.discount_amount }
  | .CGST_SGST =>
      let cgst := item_subtotal * (pr.2.tax_rate / 200)
      let sgst := item_subtotal * (pr.2.tax_rate / 200)
      { quantity := pr.1.quantity, rate := pr.1.rate, tax_rate := pr.2.tax_rate,
        tax_amount := cgst + sgst, subtotal := item_subtotal,
        total := item_subtotal + cgst + sgst,
        cgst := some cgst, sgst := some sgst, igst := none, tax_type := tax_type,
        hsn_sac := pyOrStr pr.1.hsn_sac pr.2.hsn_sac,
        description := pyOrStr pr.1.description pr.2.description,
        discount_percent := pr.1.discount_percent,
        discount_amount := pr.1.discount_amount }

/-- Decimal digit characters of a natural number, most significant first;
the embedding of Python integer-to-decimal-string formatting. Structured with
a fuel argument equal to the number itself so that it evaluates by kernel
reduction; fuel n always suffices since each recursive argument shrinks. -/
def natDigitCharsAux : ℕ → ℕ → List Char
  | 0, n => [Char.ofNat (48 + n % 10)]
  | f + 1, n =>
      if n < 10 then [Char.ofNat (48 + n)]
      else natDigitCharsAux f (n / 10) ++ [Char.ofNat (48 + n % 10)]

/-- Decimal digit characters of n, most significant first. -/
def natDigitChars (n : ℕ) : List Char := natDigitCharsAux n n

/-- Python format spec 05d: the decimal string of n left padded with zeros to
width 5 (numbers of six or more digits are unpadded). -/
def pad5 (n : ℕ) : String :=
  String.mk (List.replicate (5 - (natDigitChars n).length) (Char.ofNat 48) ++ natDigitChars n)

/-- Python str(year) sliced with negative-2: the last two characters of the
decimal representation of the year. -/
def yearSuffix (year : ℕ) : String :=
  String.mk ((natDigitChars year).drop ((natDigitChars year).length - 2))

/-- The synthesized invoice number of create_invoice (invoices.py line 167). -/
def mkInvoiceNumber (namePref ys : String) (counter : ℕ) : String :=
  namePref ++ "-INV-" ++ ys ++ "-" ++ pad5 counter

/-- create_invoice from app/api/api_v1/endpoints/invoices.py lines 128 to 309:
the computation on the resolved records, returning the committed invoice and
the business profile with its counter incremented. The item drafts are paired
with their resolved products; year is the current calendar year. -/
def createInvoice (bp : BusinessProfile) (cust : Customer) (inv_in : InvoiceCreate)
    (pairs : List (ItemCreate × Product)) (year : ℕ) : Invoice × BusinessProfile :=
  let tax_type : TaxType := if bp.state ≠ cust.state then .IGST else .CGST_SGST
  let namePref : String := if bp.name = "" then "IN" else (bp.name.take 2).toUpper
  let invoice_number : String :=
    if pyTruthyStr inv_in.invoice_number then inv_in.invoice_number.getD ""
    else mkInvoiceNumber namePref (yearSuffix year) bp.current_invoice_number
  let invoice_status : InvoiceStatus :=
    if pyTruthyStr inv_in.irn then .APPROVED else inv_in.status.getD .DRAFT
  let items : List InvoiceItem := pairs.map (mkInvoiceItem tax_type)
  let subtotal : ℚ := (items.map (·.subtotal)).sum
  let tax_amount : ℚ := (items.map (·.tax_amount)).sum
  let cgst_total : ℚ := (items.map (fun it => it.cgst.getD 0)).sum
  let sgst_total : ℚ := (items.map (fun it => it.sgst.getD 0)).sum
  let igst_total : ℚ := (items.map (fun it => it.igst.getD 0)).sum
  let invoice : Invoice :=
    { invoice_number := invoice_number
      invoice_date := inv_in.invoice_date
      subtotal := subtotal
      tax_amount := tax_amount
      total := subtotal + tax_amount
      tax_type := tax_type
      cgst_total := if tax_type = .IGST then none else some cgst_total
      sgst_total := if tax_type = .IGST then none else some sgst_total
      igst_total := if tax_type = .IGST then some igst_total else none
      status := invoice_status
      payment_status := inv_in.payment_status
      document_type := inv_in.document_type
      supply_type := inv_in.supply_type
      discount_amount := inv_in.discount_amount
      round_off := inv_in.round_off
      irn := inv_in.irn
      is_imported := inv_in.is_imported
      items := items }
  (invoice, { bp with current_invoice_number := bp.current_invoice_number + 1 })

/-- InvoiceUpdate schema (app/schemas/invoice.py): the optional fields of the
update draft that the recomputation reads. -/
structure InvoiceUpdate where
  status : Option InvoiceStatus
  discount_amount : Option ℚ
  round_off : Option ℚ
deriving DecidableEq, Repr

/-- update_invoice from invoices.py lines 818 to 962: non-None draft fields are
copied onto the invoice, items are deleted and rebuilt, totals recomputed, and
the unpopulated jurisdiction pair set to NULL explicitly. -/
def updateInvoice (inv : Invoice) (bp : BusinessProfile) (cust : Customer)
    (upd : InvoiceUpdate) (pairs : List (ItemCreate × Product)) : Invoice :=
  let tax_type : TaxType := if bp.state ≠ cust.state then .IGST else .CGST_SGST
  let items : List InvoiceItem := pairs.map (mkInvoiceItem tax_type)
  let subtotal : ℚ := (items.map (·.subtotal)).sum
  let tax_amount : ℚ := (items.map (·.tax_amount)).sum
  let cgst_total : ℚ := (items.map (fun it => it.cgst.getD 0)).sum
  let sgst_total : ℚ := (items.map (fun it => it.sgst.getD 0)).sum
  let igst_total : ℚ := (items.map (fun it => it.igst.getD 0)).sum
  { inv with
    status := upd.status.getD inv.status
    discount_amount := upd.discount_amount.getD inv.discount_amount
    round_off := upd.round_off.getD inv.round_off
    tax_type := tax_type
    items := items
    subtotal := subtotal
    tax_amount := tax_amount
    total := subtotal + tax_amount
    cgst_total := if tax_type = .IGST then none else some cgst_total
    sgst_total := if tax_type = .IGST then none else some sgst_total
    igst_total := if tax_type = .IGST then some igst_total else none }

/-- N sequential calls of create_invoice against one business profile,
collecting the assigned invoice numbers. -/
def createSeq (bp : BusinessProfile) (cust : Customer) (inv_in : InvoiceCreate)
    (pairs : List (ItemCreate × Product)) (year : ℕ) : ℕ → List String × BusinessProfile
  | 0 => ([], bp)
  | n + 1 =>
      let step := createInvoice bp cust inv_in pairs year
      let rest := createSeq step.2 cust inv_in pairs year n
      (step.1.invoice_number :: rest.1, rest.2)

/-- Python round to an integer: round half to even, the tie-breaking rule of
the built-in round. -/
def roundHalfEven (q : ℚ) : ℤ :=
  if q - ⌊q⌋ < 1 / 2 then ⌊q⌋
  else if 1 / 2 < q - ⌊q⌋ then ⌊q⌋ + 1
  else if ⌊q⌋ % 2 = 0 then ⌊q⌋ else ⌊q⌋ + 1

/-- Python round(x, 2): round to 2 decimal places. -/
def round2 (q : ℚ) : ℚ := (roundHalfEven (100 * q) : ℚ) / 100

/-- Python round(x, 3): round to 3 decimal places, used for NIC quantities. -/
def round3 (q : ℚ) : ℚ := (roundHalfEven (1000 * q) : ℚ) / 1000

/-- One ItemList entry of the NIC JSON (nic_json_utils.py lines 92 to 120). -/
structure NicItem where
  slNo : ℕ
  prdDesc : String
  isServc : String
  hsnCd : String
  qty : ℚ
  unit : Option String
  unitPrice : ℚ
  totAmt : ℚ
  discount : ℚ
  assAmt : ℚ
  gstRt : ℚ
  totItemVal : ℚ
  igstAmt : ℚ
  cgstAmt : ℚ
  sgstAmt : ℚ
deriving DecidableEq, Repr

/-- ValDtls of the NIC JSON (nic_json_utils.py lines 80 to 87). -/
structure NicValDtls where
  assVal : ℚ
  cgstVal : ℚ
  sgstVal : ℚ
  igstVal : ℚ
  totInvVal : ℚ
  rndOffAmt : ℚ
deriving DecidableEq, Repr

/-- SellerDtls of the NIC JSON (nic_json_utils.py lines 56 to 66). -/
structure NicSeller where
  gstin : String
  lglNm : String
  addr1 : String
  loc : String
  pin : String
  stcd : String
  ph : String
  em : String
deriving DecidableEq, Repr

/-- BuyerDtls of the NIC JSON (nic_json_utils.py lines 67 to 78). -/
structure NicBuyer where
  gstin : String
  lglNm : String
  pos : String
  addr1 : String
  loc : String
  pin : String
  stcd : String
  ph : String
  em : String
deriving DecidableEq, Repr

/-- The NIC JSON document (nic_json_utils.py lines 41 to 88). The DocDtls date
is carried as a PyDate: the DD/MM/YYYY strftime of export and matching strptime
of import are modelled as the identity on the date record. -/
structure NicJson where
  supTyp : String
  docNo : String
  docDt : PyDate
  seller : NicSeller
  buyer : NicBuyer
  itemList : List NicItem
  valDtls : NicValDtls
deriving DecidableEq, Repr

/-- The supply-type mapping of invoice_to_nic_json (lines 22 to 33), keyed by
the enum member name with default B2B. -/
def supplyTypeCode : SupplyType → String
  | .B2B => "B2B"
  | .B2C => "B2C"
  | .EXPORT_WITH_TAX => "EXPWP"
  | .EXPORT_WITHOUT_TAX => "EXPWOP"
  | .SEZ_WITH_TAX => "SEZWP"
  | .SEZ_WITHOUT_TAX => "SEZWOP"

/-- get_state_code of nic_json_utils.py lines 262 to 320: fixed table with a
partial-match scan and default 07. Only the exact-match table is replicated;
the partial-match scan collapses into the same lookup for exact state names. -/
def nicStateCodeTable : List (String × String) :=
  [("Andhra Pradesh", "37"), ("Arunachal Pradesh", "12"), ("Assam", "18"),
   ("Bihar", "10"), ("Chhattisgarh", "22"), ("Goa", "30"), ("Gujarat", "24"),
   ("Haryana", "06"), ("Himachal Pradesh", "02"), ("Jharkhand", "20"),
   ("Karnataka", "29"), ("Kerala", "32"), ("Madhya Pradesh", "23"),
   ("Maharashtra", "27"), ("Manipur", "14"), ("Meghalaya", "17"),
   ("Mizoram", "15"), ("Nagaland", "13"), ("Odisha", "21"), ("Punjab", "03"),
   ("Rajasthan", "08"), ("Sikkim", "11"), ("Tamil Nadu", "33"),
   ("Telangana", "36"), ("Tripura", "16"), ("Uttar Pradesh", "09"),
   ("Uttarakhand", "05"), ("West Bengal", "19"),
   ("Andaman and Nicobar Islands", "35"), ("Chandigarh", "04"),
   ("Dadra and Nagar Haveli and Daman and Diu", "26"), ("Delhi", "07"),
   ("Jammu and Kashmir", "01"), ("Ladakh", "38"), ("Lakshadweep", "31"),
   ("Puducherry", "34")]

/-- get_state_code exact lookup with the default 07 fallback. -/
def get_state_code (state_name : String) : String :=
  match nicStateCodeTable.lookup state_name with
  | some code => code
  | none => "07"

/-- get_customer_gstin of nic_json_utils.py lines 323 to 337. -/
def get_customer_gstin (cust : Customer) (supply_type : String) : String :=
  if supply_type = "EXPWP" ∨ supply_type = "EXPWOP" then ""
  else if ¬ pyTruthyStr cust.gstin ∧ supply_type = "B2B" then "URP"
  else cust.gstin.getD ""

/-- mapM over Option, written out so that inversion lemmas are by plain
structural induction. -/
def optionMapM (f : α → Option β) : List α → Option (List β)
  | [] => some []
  | a :: as => do
      let b ← f a
      let bs ← optionMapM f as
      pure (b :: bs)

/-- One exported ItemList entry (nic_json_utils.py lines 92 to 120). none marks
the places where the Python raises: startswith on a NULL product HSN, or
float(None) on the tax column of the unpopulated jurisdiction side. -/
def nicItemOf (tax_type : TaxType) (i : ℕ) (pr : InvoiceItem × Product) : Option NicItem := do
  let hsn ← pr.2.hsn_sac
  let taxes ← match tax_type with
    | .IGST => do
        let x ← pr.1.igst
        pure (round2 x, (0 : ℚ), (0 : ℚ))
    | .CGST_SGST => do
        let c ← pr.1.cgst
        let s ← pr.1.sgst
        pure ((0 : ℚ), round2 c, round2 s)
  pure { slNo := i
         prdDesc := pr.2.name
         isServc := if hsn.startsWith "99" then "Y" else "N"
         hsnCd := hsn
         qty := round3 pr.1.quantity
         unit := pr.2.unit
         unitPrice := round2 pr.1.rate
         totAmt := round2 pr.1.subtotal
         discount := round2 pr.1.discount_amount
         assAmt := round2 pr.1.subtotal
         gstRt := round2 pr.2.tax_rate
         totItemVal := round2 pr.1.total
         igstAmt := taxes.1
         cgstAmt := taxes.2.1
         sgstAmt := taxes.2.2 }

/-- invoice_to_nic_json from app/utils/nic_json_utils.py lines 8 to 122.
Returns none exactly where the Python function would raise. -/
def invoice_to_nic_json (inv : Invoice) (bp : BusinessProfile) (cust : Customer)
    (pairs : List (InvoiceItem × Product)) : Option NicJson := do
  let supply_type := supplyTypeCode inv.supply_type
  let is_export := supply_type = "EXPWP" ∨ supply_type = "EXPWOP"
  let itemsJson ← optionMapM (fun pr => nicItemOf inv.tax_type (pr.1 + 1) pr.2) pairs.enum
  pure { supTyp := supply_type
         docNo := inv.invoice_number
         docDt := inv.invoice_date
         seller := { gstin := bp.gstin, lglNm := bp.name, addr1 := bp.address,
                     loc := bp.state, pin := bp.pin,
                     stcd := get_state_code bp.state,
                     ph := bp.phone.getD "", em := bp.email.getD "" }
         buyer := { gstin := get_customer_gstin cust supply_type,
                    lglNm := cust.name,
                    pos := if is_export then "96" else get_state_code cust.state,
                    addr1 := cust.address, loc := cust.state, pin := cust.pincode,
                    stcd := if is_export then "96" else get_state_code cust.state,
                    ph := cust.phone.getD "", em := cust.email.getD "" }
         itemList := itemsJson
         valDtls := { assVal := round2 inv.subtotal
                      cgstVal := round2 (inv.cgst_total.getD 0)
                      sgstVal := round2 (inv.sgst_total.getD 0)
                      igstVal := round2 (inv.igst_total.getD 0)
                      totInvVal := round2 inv.total
                      rndOffAmt := round2 inv.round_off } }

/-- nic_json_to_invoice from app/utils/nic_json_utils.py lines 125 to 256: the
reconstructed Invoice with its rebuilt items. Tax fields are taken from the
payload, not recomputed; enum-valued and e-invoice columns take their model
defaults since the constructor does not pass them. -/
def nic_json_to_invoice (j : NicJson) : Invoice :=
  let tax_type : TaxType := if 0 < j.valDtls.igstVal then .IGST else .CGST_SGST
  { invoice_number := j.docNo
    invoice_date := j.docDt
    subtotal := j.valDtls.assVal
    tax_amount := j.valDtls.cgstVal + j.valDtls.sgstVal + j.valDtls.igstVal
    total := j.valDtls.totInvVal
    tax_type := tax_type
    cgst_total := pyOrNone j.valDtls.cgstVal
    sgst_total := pyOrNone j.valDtls.sgstVal
    igst_total := pyOrNone j.valDtls.igstVal
    status := .DRAFT
    payment_status := .UNPAID
    document_type := .INVOICE
    supply_type := .B2B
    discount_amount := 0
    round_off := 0
    irn := none
    is_imported := false
    items := j.itemList.map fun ni =>
      { quantity := ni.qty, rate := ni.unitPrice, tax_rate := ni.gstRt,
        tax_amount := ni.igstAmt + ni.cgstAmt + ni.sgstAmt,
        subtotal := ni.assAmt, total := ni.totItemVal,
        cgst := pyOrNone ni.cgstAmt, sgst := pyOrNone ni.sgstAmt,
        igst := pyOrNone ni.igstAmt, tax_type := tax_type,
        hsn_sac := none, description := none,
        discount_percent := 0, discount_amount := 0 } }

/-- Python str.strip on a character list: leading and trailing whitespace
removed. -/
def pyStrip (l : List Char) : List Char :=
  ((l.dropWhile Char.isWhitespace).reverse.dropWhile Char.isWhitespace).reverse

/-- Python str.upper on a character list; inputs here are ASCII, where
Char.toUpper agrees with Python. -/
def pyUpper (l : List Char) : List Char := l.map Char.toUpper

/-- Uppercase Latin letter test, the A-Z character class of the GSTIN regex. -/
def isUpperAlpha (c : Char) : Bool := 'A' ≤ c ∧ c ≤ 'Z'

/-- The GSTIN regex of validate_gstin (validation_utils.py line 73): two
digits, five uppercase letters, four digits, one uppercase letter, one digit
or uppercase letter, the literal Z, one digit or uppercase letter. -/
def gstinPatternMatch (l : List Char) : Bool :=
  match l with
  | [c0, c1, c2, c3, c4, c5, c6, c7, c8, c9, c10, c11, c12, c13, c14] =>
      c0.isDigit && c1.isDigit &&
      isUpperAlpha c2 && isUpperAlpha c3 && isUpperAlpha c4 &&
      isUpperAlpha c5 && isUpperAlpha c6 &&
      c7.isDigit && c8.isDigit && c9.isDigit && c10.isDigit &&
      isUpperAlpha c11 && (c12.isDigit || isUpperAlpha c12) &&
      (c13 = 'Z') && (c14.isDigit || isUpperAlpha c14)
  | _ => false

/-- int(gstin[0:2]) of validate_gstin: numeric value of the two leading digit
characters. -/
def gstinStateCode (l : List Char) : ℕ :=
  match l with
  | c0 :: c1 :: _ => (c0.toNat - 48) * 10 + (c1.toNat - 48)
  | _ => 0

/-- validate_gstin from app/utils/validation_utils.py lines 34 to 83. The
input is stripped and uppercased before any check. -/
def validate_gstin (gstin : String) (country : String) : Bool × Option String :=
  if gstin = "" then (false, some "GSTIN is required")
  else
    let g : List Char := pyUpper (pyStrip gstin.data)
    if g = "URP".data then
      if country = "India" then (false, some "URP GSTIN is only valid for foreign customers")
      else (true, none)
    else if g.length ≠ 15 then (false, some "GSTIN must be exactly 15 characters")
    else if ¬ gstinPatternMatch g then (false, some "GSTIN format is invalid")
    else if ¬ (1 ≤ gstinStateCode g ∧ gstinStateCode g ≤ 38) then
      (false, some "Invalid state code in GSTIN")
    else (true, none)

/-- The units word table of num_to_words (invoice_utils.py lines 51 to 52). -/
def unitsWords : List String :=
  ["", "One", "Two", "Three", "Four", "Five", "Six", "Seven", "Eight", "Nine",
   "Ten", "Eleven", "Twelve", "Thirteen", "Fourteen", "Fifteen", "Sixteen",
   "Seventeen", "Eighteen", "Nineteen"]

/-- The tens word table of num_to_words (invoice_utils.py line 53). -/
def tensWords : List String :=
  ["", "", "Twenty", "Thirty", "Forty", "Fifty", "Sixty", "Seventy", "Eighty", "Ninety"]

/-- The inner recursion of num_to_words (invoice_utils.py lines 50 to 70),
grouping by the Indian scale: Hundred, Thousand, Lakh, Crore. Fuel-structured
for kernel evaluation; fuel n plus one always suffices since every recursive
argument is strictly smaller. -/
def getWordsAux : ℕ → ℕ → String
  | 0, _ => ""
  | f + 1, n =>
      if n < 20 then unitsWords.getD n ""
      else if n < 100 then
        tensWords.getD (n / 10) "" ++
          (if n % 10 = 0 then "" else " " ++ unitsWords.getD (n % 10) "")
      else if n < 1000 then
        unitsWords.getD (n / 100) "" ++ " Hundred" ++
          (if n % 100 = 0 then "" else " and " ++ getWordsAux f (n % 100))
      else if n < 100000 then
        getWordsAux f (n / 1000) ++ " Thousand" ++
          (if n % 1000 = 0 then "" else " " ++ getWordsAux f (n % 1000))
      else if n < 10000000 then
        getWordsAux f (n / 100000) ++ " Lakh" ++
          (if n % 100000 = 0 then "" else " " ++ getWordsAux f (n % 100000))
      else
        getWordsAux f (n / 10000000) ++ " Crore" ++
          (if n % 10000000 = 0 then "" else " " ++ getWordsAux f (n % 10000000))

/-- The helper _get_words of num_to_words. -/
def getWords (n : ℕ) : String := getWordsAux (n + 1) n

/-- num_to_words from app/utils/invoice_utils.py lines 46 to 87. The integer
part is the floor, which agrees with Python int() on the non-negative amounts
the function receives; the paise part is the Python round of the fractional
part times 100. -/
def num_to_words (num : ℚ) : String :=
  if num = 0 then "Zero"
  else
    let int_part : ℤ := ⌊num⌋
    let decimal_part : ℤ := roundHalfEven ((num - (int_part : ℚ)) * 100)
    let words := getWords int_part.toNat
    if 0 < decimal_part then
      words ++ " and " ++ getWords decimal_part.toNat ++ " Paise"
    else words

/-- The hard-coded minimal PDF byte literal of generate_invoice_pdf
(invoice_utils.py lines 879 and 951), the infallible last fallback tier. -/
def emergencyPdf : String :=
  "%PDF-1.4\n1 0 obj<</Type/Catalog/Pages 2 0 R>>endobj 2 0 obj<</Type/Pages/Count 1/Kids[3 0 R]>>endobj 3 0 obj<</Type/Page/MediaBox[0 0 612 792]/Resources<<>>/Contents 4 0 R>>endobj 4 0 obj<</Length 68>>stream\nBT\n/F1 12 Tf\n72 700 Td\n(Error Generating Invoice PDF) Tj\nET\nendstream\nendobj\ntrailer<</Size 5/Root 1 0 R>>\n%%EOF"

/-- Valid PDF output test: non-empty bytes beginning with the PDF magic
header. -/
def pdfOk (s : String) : Bool := !s.data.isEmpty && "%PDF".data.isPrefixOf s.data

/-- The tiered exception-driven fallback chain of generate_invoice_pdf
(invoice_utils.py lines 90 to 954): the renderer tiers (full styled render,
simplified render, error-page render, ultra-simple canvas render) each either
produce bytes or raise, modelled as Option String outcomes in order; the first
successful tier is returned, and when every tier fails the hard-coded literal
is returned by a bare except that cannot fail. -/
def generate_invoice_pdf : List (Option String) → String
  | [] => emergencyPdf
  | some b :: _ => b
  | none :: rest => generate_invoice_pdf rest

/-- The module-level names in scope in app/utils/invoice_utils.py: its imports
(lines 1 to 17) and its own definitions. DocumentType and SupplyType are not
among them. -/
def invoiceUtilsModuleScope : List String :=
  ["Dict", "List", "Tuple", "Any", "tempfile", "colors", "letter", "A4",
   "SimpleDocTemplate", "Table", "TableStyle", "Paragraph", "Spacer", "Image",
   "KeepTogether", "PageBreak", "getSampleStyleSheet", "ParagraphStyle",
   "inch", "mm", "cm", "canvas", "TA_LEFT", "TA_RIGHT", "TA_CENTER", "BytesIO",
   "Environment", "FileSystemLoader", "os", "Path", "decimal", "datetime",
   "Invoice", "BusinessProfile", "Customer", "InvoiceItem", "Product", "TaxType",
   "calculate_tax", "num_to_words", "generate_invoice_pdf",
   "generate_invoice_pdf_html", "generate_gst_irp_json", "get_state_code"]

/-- Python global-name resolution inside invoice_utils.py: a name not in the
module scope raises NameError with the message str(e) carries. -/
def lookupGlobal (n : String) : Except String Unit :=
  if n ∈ invoiceUtilsModuleScope then .ok ()
  else .error ("name " ++ n ++ " is not defined")

/-- hasattr(invoice, ...) for document_type: every model Invoice has the
column (app/models/invoice.py line 66), so the probe is always true. -/
def invoiceHasDocumentTypeAttr : Bool := true

/-- The doc-type determination of generate_gst_irp_json (invoice_utils.py
lines 1136 to 1141): the comparison evaluates the global name DocumentType. -/
def irpDocType (inv : Invoice) : Except String String :=
  if invoiceHasDocumentTypeAttr then do
    lookupGlobal "DocumentType"
    pure (match inv.document_type with
      | .CREDIT_NOTE => "CRN"
      | .DEBIT_NOTE => "DBN"
      | .INVOICE => "INV")
  else pure "INV"

/-- The supply-type determination of generate_gst_irp_json (lines 1144 to
1149): the comparison evaluates the global name SupplyType. Unreachable after
the doc-type step fails. -/
def irpSupplyType (inv : Invoice) : Except String String :=
  if invoiceHasDocumentTypeAttr then do
    lookupGlobal "SupplyType"
    pure (match inv.supply_type with
      | .B2C => "B2C"
      | _ => "B2B")
  else pure "B2B"

/-- The result of generate_gst_irp_json: either the IRP payload or the
structured error dict built by the except handler. -/
inductive IrpResult where
  | payload (supTyp docTyp docNo : String) (valDtls : NicValDtls)
  | errorDict (msg : String)
deriving DecidableEq, Repr

/-- generate_gst_irp_json from app/utils/invoice_utils.py lines 1113 to 1289:
the body runs under a try whose except returns the error dict with str(e).
The payload assembly after the supply-type step is unreachable and is
represented by its headline fields. -/
def generate_gst_irp_json (inv : Invoice) (bp : BusinessProfile) (cust : Customer)
    (items : List (InvoiceItem × Product)) : IrpResult :=
  match (do
    let dt ← irpDocType inv
    let st ← irpSupplyType inv
    pure (dt, st) : Except String (String × String)) with
  | .error e => .errorDict e
  | .ok (dt, st) =>
      .payload st dt inv.invoice_number
        { assVal := inv.subtotal
          cgstVal := inv.cgst_total.getD 0
          sgstVal := inv.sgst_total.getD 0
          igstVal := inv.igst_total.getD 0
          totInvVal := inv.total
          rndOffAmt := inv.round_off }

/-! Concrete fixtures used by counterexamples and witnesses. -/

/-- A seller profile in Karnataka with counter 7. -/
def bpEx : BusinessProfile :=
  { name := "Acme", gstin := "29AAAAA0000A1Z5", address := "12 MG Road",
    state := "Karnataka", pin := "560001", phone := none, email := none,
    current_invoice_number := 7 }

/-- A buyer in the same state as bpEx. -/
def custSame : Customer :=
  { name := "Bharat Traders", gstin := none, address := "5 Brigade Road",
    state := "Karnataka", country := "India", pincode := "560002",
    email := none, phone := none }

/-- A buyer in a different state from bpEx. -/
def custOther : Customer :=
  { name := "Deccan Supplies", gstin := none, address := "9 FC Road",
    state := "Maharashtra", country := "India", pincode := "411001",
    email := none, phone := none }

/-- A fixture invoice date. -/
def dateEx : PyDate := { day := 1, month := 4, year := 2026 }

/-- A plain draft: no explicit number, no status, no IRN, no discount. -/
def invInPlain : InvoiceCreate :=
  { invoice_date := dateEx, invoice_number := none, status := none,
    payment_status := .UNPAID, document_type := .INVOICE, supply_type := .B2B,
    discount_amount := 0, round_off := 0, irn := none, is_imported := false }

/-- A draft carrying a nonzero discount_amount and zero round_off. -/
def invInDisc : InvoiceCreate :=
  { invInPlain with discount_amount := 10 }

/-- A draft carrying an IRN and an explicit Draft status request. -/
def invInIrn : InvoiceCreate :=
  { invInPlain with irn := some "IRN0001", status := some .DRAFT }

/-- A fixture line-item draft: quantity 2 at rate 50. -/
def icEx : ItemCreate :=
  { quantity := 2, rate := 50, hsn_sac := none, description := none,
    discount_percent := 0, discount_amount := 0 }

/-- A fixture product at 18 percent tax with HSN 1234. -/
def prodEx : Product :=
  { name := "Widget", description := none, hsn_sac := some "1234",
    is_service := false, tax_rate := 18, unit := some "NOS" }

/-! Claim theorems. -/

/-- Per-line tax split of a constructed invoice item, by jurisdiction. -/
lemma mkInvoiceItem_spec (tt : TaxType) (pr : ItemCreate × Product) :
    (mkInvoiceItem tt pr).tax_type = tt
    ∧ (mkInvoiceItem tt pr).subtotal
        = (mkInvoiceItem tt pr).quantity * (mkInvoiceItem tt pr).rate
    ∧ ((mkInvoiceItem tt pr).tax_type = TaxType.IGST →
        (mkInvoiceItem tt pr).igst
          = some ((mkInvoiceItem tt pr).subtotal * ((mkInvoiceItem tt pr).tax_rate / 100))
        ∧ ((mkInvoiceItem tt pr).cgst).getD 0 = 0
        ∧ ((mkInvoiceItem tt pr).sgst).getD 0 = 0
        ∧ (mkInvoiceItem tt pr).tax_amount
          = (mkInvoiceItem tt pr).subtotal * ((mkInvoiceItem tt pr).tax_rate / 100))
    ∧ ((mkInvoiceItem tt pr).tax_type = TaxType.CGST_SGST →
        (mkInvoiceItem tt pr).cgst
          = some ((mkInvoiceItem tt pr).subtotal * ((mkInvoiceItem tt pr).tax_rate / 200))
        ∧ (mkInvoiceItem tt pr).sgst
          = some ((mkInvoiceItem tt pr).subtotal * ((mkInvoiceItem tt pr).tax_rate / 200))
        ∧ ((mkInvoiceItem tt pr).igst).getD 0 = 0
        ∧ (mkInvoiceItem tt pr).tax_amount
          = ((mkInvoiceItem tt pr).cgst).getD 0 + ((mkInvoiceItem tt pr).sgst).getD 0)
    ∧ ((mkInvoiceItem tt pr).tax_rate = 0 → (mkInvoiceItem tt pr).tax_amount = 0) := by
  cases tt <;>
    refine ⟨by simp [mkInvoiceItem], by simp [mkInvoiceItem], ?_, ?_, ?_⟩ <;>
    simp [mkInvoiceItem] <;>
    intro h0 <;> simp [h0]

/-- Claim C1: invoice creation decides IGST exactly when the seller state
differs from the buyer state, applies that decision to every line item, and
each line with subtotal s and rate r gets igst s times r over 100 with zero
CGST and SGST in the IGST case, and half-rate CGST and SGST each with
tax_amount their sum in the CGST_SGST case; a zero rate yields zero tax.
calculate_tax realises the same split. NULL tax columns read as zero. -/
theorem claim_C1 (bp : BusinessProfile) (cust : Customer) (inv_in : InvoiceCreate)
    (pairs : List (ItemCreate × Product)) (year : ℕ) :
    ((createInvoice bp cust inv_in pairs year).1.tax_type
        = if bp.state ≠ cust.state then TaxType.IGST else TaxType.CGST_SGST)
    ∧ (∀ it ∈ (createInvoice bp cust inv_in pairs year).1.items,
        it.tax_type = (createInvoice bp cust inv_in pairs year).1.tax_type
        ∧ it.subtotal = it.quantity * it.rate
        ∧ (it.tax_type = TaxType.IGST →
            it.igst = some (it.subtotal * (it.tax_rate / 100))
            ∧ it.cgst.getD 0 = 0 ∧ it.sgst.getD 0 = 0
            ∧ it.tax_amount = it.subtotal * (it.tax_rate / 100))
        ∧ (it.tax_type = TaxType.CGST_SGST →
            it.cgst = some (it.subtotal * (it.tax_rate / 200))
            ∧ it.sgst = some (it.subtotal * (it.tax_rate / 200))
            ∧ it.igst.getD 0 = 0
            ∧ it.tax_amount = it.cgst.getD 0 + it.sgst.getD 0)
        ∧ (it.tax_rate = 0 → it.tax_amount = 0))
    ∧ (∀ s r : ℚ,
        calculate_tax s r TaxType.IGST
          = { tax_amount := s * (r / 100), cgst := 0, sgst := 0, igst := s * (r / 100) }
        ∧ calculate_tax s r TaxType.CGST_SGST
          = { tax_amount := s * (r / 200) + s * (r / 200), cgst := s * (r / 200),
              sgst := s * (r / 200), igst := 0 }
        ∧ (r = 0 → (calculate_tax s r TaxType.IGST).tax_amount = 0
            ∧ (calculate_tax s r TaxType.CGST_SGST).tax_amount = 0)) := by
  refine ⟨by simp [createInvoice], ?_, ?_⟩
  · intro it hit
    have hmem : it ∈ pairs.map
        (mkInvoiceItem (if bp.state ≠ cust.state then TaxType.IGST else TaxType.CGST_SGST)) := by
      simpa [createInvoice] using hit
    obtain ⟨pr, _, hpr⟩ := List.mem_map.mp hmem
    have htt : (createInvoice bp cust inv_in pairs year).1.tax_type
        = if bp.state ≠ cust.state then TaxType.IGST else TaxType.CGST_SGST := by
      simp [createInvoice]
    rw [htt]
    subst hpr
    have hs := mkInvoiceItem_spec
      (if bp.state ≠ cust.state then TaxType.IGST else TaxType.CGST_SGST) pr
    exact ⟨hs.1, hs.2.1, hs.2.2.1, hs.2.2.2.1, hs.2.2.2.2⟩
  · intro s r
    refine ⟨by simp [calculate_tax], by simp [calculate_tax], ?_⟩
    rintro rfl
    simp [calculate_tax]

/-- Claim C1 witness: a concrete inter-state creation whose single line item
satisfies the IGST split. -/
theorem claim_C1_witness :
    ((mkInvoiceItem TaxType.IGST (icEx, prodEx))
        ∈ (createInvoice bpEx custOther invInPlain [(icEx, prodEx)] 2026).1.items)
    ∧ (mkInvoiceItem TaxType.IGST (icEx, prodEx)).igst
        = some ((mkInvoiceItem TaxType.IGST (icEx, prodEx)).subtotal
            * ((mkInvoiceItem TaxType.IGST (icEx, prodEx)).tax_rate / 100)) := by
  have h := claim_C1 bpEx custOther invInPlain [(icEx, prodEx)] 2026
  have hitems : (createInvoice bpEx custOther invInPlain [(icEx, prodEx)] 2026).1.items
      = [mkInvoiceItem TaxType.IGST (icEx, prodEx)] := by rfl
  have hmem : (mkInvoiceItem TaxType.IGST (icEx, prodEx))
      ∈ (createInvoice bpEx custOther invInPlain [(icEx, prodEx)] 2026).1.items := by
    rw [hitems]; exact List.mem_singleton.mpr rfl
  exact ⟨hmem, ((h.2.1 _ hmem).2.2.1 (by rfl)).1⟩

/-- Claim C2 counterexample: a creation with discount_amount 10 and round_off 0
stores total equal to subtotal plus tax_amount, violating the claimed identity
total equals subtotal plus tax_amount minus discount_amount plus round_off. -/
theorem claim_C2_counterexample :
    ¬ ((createInvoice bpEx custSame invInDisc [(icEx, prodEx)] 2026).1.total
        = (createInvoice bpEx custSame invInDisc [(icEx, prodEx)] 2026).1.subtotal
          + (createInvoice bpEx custSame invInDisc [(icEx, prodEx)] 2026).1.tax_amount
          - (createInvoice bpEx custSame invInDisc [(icEx, prodEx)] 2026).1.discount_amount
          + (createInvoice bpEx custSame invInDisc [(icEx, prodEx)] 2026).1.round_off) := by
  simp [createInvoice, mkInvoiceItem, invInDisc, invInPlain, icEx, prodEx, bpEx, custSame]
  norm_num

/-- Claim C2 amended: invoices produced by creation or update store
total equal to subtotal plus tax_amount, where subtotal and tax_amount are the
sums of the per-line values; discount_amount and round_off are stored but not
applied, so the claimed identity holds exactly when the stored discount_amount
equals the stored round_off (in particular when both are zero). -/
theorem claim_C2_amended (bp : BusinessProfile) (cust : Customer)
    (inv_in : InvoiceCreate) (pairs : List (ItemCreate × Product)) (year : ℕ)
    (inv0 : Invoice) (bp2 : BusinessProfile) (cust2 : Customer)
    (upd : InvoiceUpdate) (pairs2 : List (ItemCreate × Product)) :
    ((createInvoice bp cust inv_in pairs year).1.total
        = (createInvoice bp cust inv_in pairs year).1.subtotal
          + (createInvoice bp cust inv_in pairs year).1.tax_amount)
    ∧ ((createInvoice bp cust inv_in pairs year).1.subtotal
        = (((createInvoice bp cust inv_in pairs year).1.items).map (·.subtotal)).sum
        ∧ (createInvoice bp cust inv_in pairs year).1.tax_amount
          = (((createInvoice bp cust inv_in pairs year).1.items).map (·.tax_amount)).sum)
    ∧ ((createInvoice bp cust inv_in pairs year).1.discount_amount
          = (createInvoice bp cust inv_in pairs year).1.round_off →
        (createInvoice bp cust inv_in pairs year).1.total
          = (createInvoice bp cust inv_in pairs year).1.subtotal
            + (createInvoice bp cust inv_in pairs year).1.tax_amount
            - (createInvoice bp cust inv_in pairs year).1.discount_amount
            + (createInvoice bp cust inv_in pairs year).1.round_off)
    ∧ ((updateInvoice inv0 bp2 cust2 upd pairs2).total
        = (updateInvoice inv0 bp2 cust2 upd pairs2).subtotal
          + (updateInvoice inv0 bp2 cust2 upd pairs2).tax_amount)
    ∧ ((updateInvoice inv0 bp2 cust2 upd pairs2).discount_amount
          = (updateInvoice inv0 bp2 cust2 upd pairs2).round_off →
        (updateInvoice inv0 bp2 cust2 upd pairs2).total
          = (updateInvoice inv0 bp2 cust2 upd pairs2).subtotal
            + (updateInvoice inv0 bp2 cust2 upd pairs2).tax_amount
            - (updateInvoice inv0 bp2 cust2 upd pairs2).discount_amount
            + (updateInvoice inv0 bp2 cust2 upd pairs2).round_off) := by
  refine ⟨by simp [createInvoice], ⟨by simp [createInvoice], by simp [createInvoice]⟩, ?_,
    by simp [updateInvoice], ?_⟩
  · intro h
    have ht : (createInvoice bp cust inv_in pairs year).1.total
        = (createInvoice bp cust inv_in pairs year).1.subtotal
          + (createInvoice bp cust inv_in pairs year).1.tax_amount := by
      simp [createInvoice]
    rw [ht, h]
    ring
  · intro h
    have ht : (updateInvoice inv0 bp2 cust2 upd pairs2).total
        = (updateInvoice inv0 bp2 cust2 upd pairs2).subtotal
          + (updateInvoice inv0 bp2 cust2 upd pairs2).tax_amount := by
      simp [updateInvoice]
    rw [ht, h]
    ring

/-- Claim C2 amended witness: a concrete zero-discount creation and update
satisfying the identities. -/
theorem claim_C2_amended_witness :
    ((createInvoice bpEx custSame invInPlain [(icEx, prodEx)] 2026).1.discount_amount
        = (createInvoice bpEx custSame invInPlain [(icEx, prodEx)] 2026).1.round_off)
    ∧ ((createInvoice bpEx custSame invInPlain [(icEx, prodEx)] 2026).1.total
        = (createInvoice bpEx custSame invInPlain [(icEx, prodEx)] 2026).1.subtotal
          + (createInvoice bpEx custSame invInPlain [(icEx, prodEx)] 2026).1.tax_amount
          - (createInvoice bpEx custSame invInPlain [(icEx, prodEx)] 2026).1.discount_amount
          + (createInvoice bpEx custSame invInPlain [(icEx, prodEx)] 2026).1.round_off) :=
  ⟨by simp [createInvoice, invInPlain],
    (claim_C2_amended bpEx custSame invInPlain [(icEx, prodEx)] 2026
      (createInvoice bpEx custSame invInPlain [(icEx, prodEx)] 2026).1 bpEx custSame
      { status := none, discount_amount := none, round_off := none } []).2.2.1
      (by simp [createInvoice, invInPlain])⟩

/-- Claim C3: every invoice produced by creation or update populates exactly
one jurisdiction side: IGST invoices carry igst_total with the CGST and SGST
totals NULL, CGST_SGST invoices carry both halves with igst_total NULL. -/
theorem claim_C3 (bp : BusinessProfile) (cust : Customer) (inv_in : InvoiceCreate)
    (pairs : List (ItemCreate × Product)) (year : ℕ)
    (inv0 : Invoice) (bp2 : BusinessProfile) (cust2 : Customer)
    (upd : InvoiceUpdate) (pairs2 : List (ItemCreate × Product)) :
    (((createInvoice bp cust inv_in pairs year).1.tax_type = TaxType.IGST →
        ((createInvoice bp cust inv_in pairs year).1.igst_total).isSome
        ∧ (createInvoice bp cust inv_in pairs year).1.cgst_total = none
        ∧ (createInvoice bp cust inv_in pairs year).1.sgst_total = none)
      ∧ ((createInvoice bp cust inv_in pairs year).1.tax_type = TaxType.CGST_SGST →
        ((createInvoice bp cust inv_in pairs year).1.cgst_total).isSome
        ∧ ((createInvoice bp cust inv_in pairs year).1.sgst_total).isSome
        ∧ (createInvoice bp cust inv_in pairs year).1.igst_total = none))
    ∧ (((updateInvoice inv0 bp2 cust2 upd pairs2).tax_type = TaxType.IGST →
        ((updateInvoice inv0 bp2 cust2 upd pairs2).igst_total).isSome
        ∧ (updateInvoice inv0 bp2 cust2 upd pairs2).cgst_total = none
        ∧ (updateInvoice inv0 bp2 cust2 upd pairs2).sgst_total = none)
      ∧ ((updateInvoice inv0 bp2 cust2 upd pairs2).tax_type = TaxType.CGST_SGST →
        ((updateInvoice inv0 bp2 cust2 upd pairs2).cgst_total).isSome
        ∧ ((updateInvoice inv0 bp2 cust2 upd pairs2).sgst_total).isSome
        ∧ (updateInvoice inv0 bp2 cust2 upd pairs2).igst_total = none)) := by
  constructor
  · by_cases h : bp.state = cust.state <;>
      constructor <;> intro htt <;>
      simp_all [createInvoice]
  · by_cases h : bp2.state = cust2.state <;>
      constructor <;> intro htt <;>
      simp_all [updateInvoice]

/-- Claim C3 witness: concrete inter-state and intra-state creations showing
each populated side. -/
theorem claim_C3_witness :
    (((createInvoice bpEx custOther invInPlain [(icEx, prodEx)] 2026).1.igst_total).isSome
      ∧ (createInvoice bpEx custOther invInPlain [(icEx, prodEx)] 2026).1.cgst_total = none
      ∧ (createInvoice bpEx custOther invInPlain [(icEx, prodEx)] 2026).1.sgst_total = none)
    ∧ (((createInvoice bpEx custSame invInPlain [(icEx, prodEx)] 2026).1.cgst_total).isSome
      ∧ ((createInvoice bpEx custSame invInPlain [(icEx, prodEx)] 2026).1.sgst_total).isSome
      ∧ (createInvoice bpEx custSame invInPlain [(icEx, prodEx)] 2026).1.igst_total = none) :=
  ⟨(claim_C3 bpEx custOther invInPlain [(icEx, prodEx)] 2026
      (createInvoice bpEx custOther invInPlain [(icEx, prodEx)] 2026).1 bpEx custOther
      { status := none, discount_amount := none, round_off := none } []).1.1 (by decide),
   (claim_C3 bpEx custSame invInPlain [(icEx, prodEx)] 2026
      (createInvoice bpEx custSame invInPlain [(icEx, prodEx)] 2026).1 bpEx custSame
      { status := none, discount_amount := none, round_off := none } []).1.2 (by decide)⟩

/-- Claim C6: the created invoice status is the caller-supplied status when
present, Draft otherwise, and a truthy IRN on the draft forces Approved
regardless of the caller-supplied status. -/
theorem claim_C6 (bp : BusinessProfile) (cust : Customer) (inv_in : InvoiceCreate)
    (pairs : List (ItemCreate × Product)) (year : ℕ) :
    (pyTruthyStr inv_in.irn = true →
        (createInvoice bp cust inv_in pairs year).1.status = InvoiceStatus.APPROVED)
    ∧ (pyTruthyStr inv_in.irn = false →
        (createInvoice bp cust inv_in pairs year).1.status
          = inv_in.status.getD InvoiceStatus.DRAFT) := by
  constructor <;> intro h <;> simp [createInvoice, h]

/-- Claim C6 witness: a draft carrying an IRN and an explicit Draft status is
created Approved; the plain draft is created Draft. -/
theorem claim_C6_witness :
    ((createInvoice bpEx custSame invInIrn [(icEx, prodEx)] 2026).1.status
        = InvoiceStatus.APPROVED)
    ∧ ((createInvoice bpEx custSame invInPlain [(icEx, prodEx)] 2026).1.status
        = (invInPlain.status).getD InvoiceStatus.DRAFT) :=
  ⟨(claim_C6 bpEx custSame invInIrn [(icEx, prodEx)] 2026).1 (by decide),
   (claim_C6 bpEx custSame invInPlain [(icEx, prodEx)] 2026).2 (by decide)⟩

/-- Decimal accumulator step: the value of one more digit character. -/
def digitStep (a : ℕ) (c : Char) : ℕ := 10 * a + (c.toNat - 48)

/-- Numeric value of a digit-character list, most significant first. -/
def strDigitsVal (l : List Char) : ℕ := l.foldl digitStep 0

/-- Numeric value of a decimal string, the reading of an invoice-number
suffix as a number. -/
def numFromStr (s : String) : ℕ := strDigitsVal s.data

lemma foldl_natDigitCharsAux (fuel : ℕ) : ∀ n, n ≤ fuel → ∀ a : ℕ,
    (natDigitCharsAux fuel n).foldl digitStep a
      = a * 10 ^ (natDigitCharsAux fuel n).length + n := by
  induction fuel with
  | zero =>
    intro n hf a
    have hn : n = 0 := Nat.le_zero.mp hf
    subst hn
    simp [natDigitCharsAux, digitStep]
    ring
  | succ f ih =>
    intro n hf a
    by_cases h : n < 10
    · have hc : (Char.ofNat (48 + n)).toNat = 48 + n := by
        interval_cases n <;> rfl
      simp [natDigitCharsAux, if_pos h, digitStep, hc]
      ring
    · have hrec := ih (n / 10) (by omega) a
      have hm : n % 10 < 10 := Nat.mod_lt _ (by norm_num)
      have hc : (Char.ofNat (48 + n % 10)).toNat = 48 + n % 10 := by
        set m := n % 10 with hmdef
        interval_cases m <;> rfl
      simp only [natDigitCharsAux, if_neg h, List.foldl_append, List.length_append,
        List.foldl_cons, List.foldl_nil, List.length_cons, List.length_nil, hrec]
      simp only [digitStep, hc]
      have h2 : 10 * (n / 10) + n % 10 = n := Nat.div_add_mod n 10
      calc 10 * (a * 10 ^ (natDigitCharsAux f (n / 10)).length + n / 10) + (48 + n % 10 - 48)
          = a * (10 ^ (natDigitCharsAux f (n / 10)).length * 10)
            + (10 * (n / 10) + n % 10) := by ring_nf; omega
        _ = a * 10 ^ ((natDigitCharsAux f (n / 10)).length + 1) + n := by
            rw [h2, pow_succ]

lemma strDigitsVal_natDigitChars (n : ℕ) : strDigitsVal (natDigitChars n) = n := by
  have h := foldl_natDigitCharsAux n n le_rfl 0
  simpa [strDigitsVal, natDigitChars] using h

lemma foldl_replicate_zero (k : ℕ) :
    (List.replicate k (Char.ofNat 48)).foldl digitStep 0 = 0 := by
  induction k with
  | zero => rfl
  | succ m ih => simpa [List.replicate_succ, digitStep] using ih

/-- The numeric value of a zero-padded counter is the counter itself. -/
lemma numFromStr_pad5 (n : ℕ) : numFromStr (pad5 n) = n := by
  show (List.replicate (5 - (natDigitChars n).length) (Char.ofNat 48)
      ++ natDigitChars n).foldl digitStep 0 = n
  rw [List.foldl_append, foldl_replicate_zero]
  have h := foldl_natDigitCharsAux n n le_rfl 0
  simpa [natDigitChars] using h

/-- Zero-padded counters are injective. -/
lemma pad5_injective {a b : ℕ} (h : pad5 a = pad5 b) : a = b := by
  have := congrArg numFromStr h
  rwa [numFromStr_pad5, numFromStr_pad5] at this

/-- Synthesized invoice numbers with a common header are injective in the
counter. -/
lemma mkInvoiceNumber_inj (p ys : String) {a b : ℕ}
    (h : mkInvoiceNumber p ys a = mkInvoiceNumber p ys b) : a = b := by
  apply pad5_injective
  have hd := congrArg String.data h
  simp only [mkInvoiceNumber, String.data_append, List.append_assoc] at hd
  apply String.ext
  exact List.append_cancel_left (List.append_cancel_left (List.append_cancel_left
    (List.append_cancel_left hd)))

/-- The business profile returned by a creation is the input with its counter
bumped. -/
lemma createInvoice_snd (bp : BusinessProfile) (cust : Customer)
    (inv_in : InvoiceCreate) (pairs : List (ItemCreate × Product)) (year : ℕ) :
    (createInvoice bp cust inv_in pairs year).2
      = { bp with current_invoice_number := bp.current_invoice_number + 1 } := rfl

/-- The invoice number synthesized for a draft without an explicit number. -/
lemma createInvoice_number (bp : BusinessProfile) (cust : Customer)
    (inv_in : InvoiceCreate) (pairs : List (ItemCreate × Product)) (year : ℕ)
    (hnum : inv_in.invoice_number = none) :
    (createInvoice bp cust inv_in pairs year).1.invoice_number
      = mkInvoiceNumber (if bp.name = "" then "IN" else (bp.name.take 2).toUpper)
          (yearSuffix year) bp.current_invoice_number := by
  simp [createInvoice, hnum, pyTruthyStr]

/-- The i-th of N sequential creations carries the counter start plus i. -/
lemma createSeq_getD (cust : Customer) (inv_in : InvoiceCreate)
    (pairs : List (ItemCreate × Product)) (year : ℕ)
    (hnum : inv_in.invoice_number = none) :
    ∀ N, ∀ bp : BusinessProfile, ∀ i, i < N →
      (createSeq bp cust inv_in pairs year N).1.getD i ""
        = mkInvoiceNumber (if bp.name = "" then "IN" else (bp.name.take 2).toUpper)
            (yearSuffix year) (bp.current_invoice_number + i) := by
  intro N
  induction N with
  | zero => intro bp i hi; omega
  | succ N ih =>
    intro bp i hi
    cases i with
    | zero =>
      show (createSeq bp cust inv_in pairs year (N + 1)).1.getD 0 ""
        = mkInvoiceNumber _ _ (bp.current_invoice_number + 0)
      simp only [createSeq, List.getD_cons_zero, Nat.add_zero]
      exact createInvoice_number bp cust inv_in pairs year hnum
    | succ i =>
      have hbp : (createInvoice bp cust inv_in pairs year).2
          = { bp with current_invoice_number := bp.current_invoice_number + 1 } :=
        createInvoice_snd bp cust inv_in pairs year
      have h := ih { bp with current_invoice_number := bp.current_invoice_number + 1 }
        i (by omega)
      show ((createSeq bp cust inv_in pairs year (N + 1)).1).getD (i + 1) "" = _
      simp only [createSeq, List.getD_cons_succ, hbp]
      rw [h]
      show mkInvoiceNumber (if bp.name = "" then "IN" else (bp.name.take 2).toUpper)
          (yearSuffix year) (bp.current_invoice_number + 1 + i)
        = mkInvoiceNumber (if bp.name = "" then "IN" else (bp.name.take 2).toUpper)
          (yearSuffix year) (bp.current_invoice_number + (i + 1))
      congr 1
      omega

/-- Claim C5: a creation whose draft has no explicit invoice number is
assigned the number built of the first two letters of the business name
uppercased, the literal INV, the last two digits of the year, and the counter
zero-padded to five digits; the counter is incremented by exactly one; and over
N sequential creations the numeric suffixes are strictly increasing with no
duplicate numbers. -/
theorem claim_C5 (bp : BusinessProfile) (cust : Customer) (inv_in : InvoiceCreate)
    (pairs : List (ItemCreate × Product)) (year N : ℕ)
    (hname : bp.name ≠ "") (hnum : inv_in.invoice_number = none) :
    ((createInvoice bp cust inv_in pairs year).1.invoice_number
        = mkInvoiceNumber ((bp.name.take 2).toUpper) (yearSuffix year)
            bp.current_invoice_number)
    ∧ ((createInvoice bp cust inv_in pairs year).2.current_invoice_number
        = bp.current_invoice_number + 1)
    ∧ (∀ i, i < N → (createSeq bp cust inv_in pairs year N).1.getD i ""
        = mkInvoiceNumber ((bp.name.take 2).toUpper) (yearSuffix year)
            (bp.current_invoice_number + i))
    ∧ (∀ i j, i < j → j < N →
        numFromStr (pad5 (bp.current_invoice_number + i))
          < numFromStr (pad5 (bp.current_invoice_number + j))
        ∧ (createSeq bp cust inv_in pairs year N).1.getD i ""
          ≠ (createSeq bp cust inv_in pairs year N).1.getD j "") := by
  have hpref : (if bp.name = "" then "IN" else (bp.name.take 2).toUpper)
      = (bp.name.take 2).toUpper := if_neg hname
  have hgetD := createSeq_getD cust inv_in pairs year hnum N bp
  refine ⟨?_, rfl, ?_, ?_⟩
  · have h := createInvoice_number bp cust inv_in pairs year hnum
    rwa [hpref] at h
  · intro i hi
    have h := hgetD i hi
    rwa [hpref] at h
  · intro i j hij hj
    have hvi := numFromStr_pad5 (bp.current_invoice_number + i)
    have hvj := numFromStr_pad5 (bp.current_invoice_number + j)
    constructor
    · rw [hvi, hvj]; omega
    · have hi := hgetD i (by omega)
      have hjj := hgetD j hj
      rw [hi, hjj]
      intro heq
      have := mkInvoiceNumber_inj _ _ heq
      omega

/-- Claim C5 witness: three sequential creations for the Acme profile with
counter 7 yield strictly increasing, distinct suffixes. -/
theorem claim_C5_witness :
    (bpEx.name ≠ "")
    ∧ ((createInvoice bpEx custSame invInPlain [(icEx, prodEx)] 2026).1.invoice_number
        = mkInvoiceNumber ((bpEx.name.take 2).toUpper) (yearSuffix 2026)
            bpEx.current_invoice_number)
    ∧ (numFromStr (pad5 (bpEx.current_invoice_number + 0))
        < numFromStr (pad5 (bpEx.current_invoice_number + 2)))
    ∧ ((createSeq bpEx custSame invInPlain [(icEx, prodEx)] 2026 3).1.getD 0 ""
        ≠ (createSeq bpEx custSame invInPlain [(icEx, prodEx)] 2026 3).1.getD 2 "") := by
  have h := claim_C5 bpEx custSame invInPlain [(icEx, prodEx)] 2026 3
    (by decide) rfl
  have h4 := h.2.2.2 0 2 (by omega) (by omega)
  exact ⟨by decide, h.1, h4.1, h4.2⟩

/-- Claim C9: num_to_words maps 0 to Zero, 100 to One Hundred, 100000 to One
Lakh, and 1234.50 to One Thousand Two Hundred and Thirty Four and Fifty Paise,
on the Indian grouping scale with a separate Paise clause; it is a total
function on the rationals. -/
theorem claim_C9 :
    num_to_words 0 = "Zero"
    ∧ num_to_words 100 = "One Hundred"
    ∧ num_to_words 100000 = "One Lakh"
    ∧ num_to_words (1234.5 : ℚ)
        = "One Thousand Two Hundred and Thirty Four and Fifty Paise" := by
  refine ⟨by simp [num_to_words], ?_, ?_, ?_⟩
  · have h0 : (100 : ℚ) ≠ 0 := by norm_num
    have hf : ⌊(100 : ℚ)⌋ = 100 := by norm_num
    simp [num_to_words, h0, hf, roundHalfEven]
    decide
  · have h0 : (100000 : ℚ) ≠ 0 := by norm_num
    have hf : ⌊(100000 : ℚ)⌋ = 100000 := by norm_num
    simp [num_to_words, h0, hf, roundHalfEven]
    decide
  · have h0 : (1234.5 : ℚ) ≠ 0 := by norm_num
    have hf : ⌊(1234.5 : ℚ)⌋ = 1234 := by norm_num
    have hexp : (((1234.5 : ℚ) - ((1234 : ℤ) : ℚ)) * 100) = 50 := by push_cast; norm_num
    have h50 : ⌊(50 : ℚ)⌋ = 50 := by norm_num
    have hr : roundHalfEven ((50 : ℚ)) = 50 := by simp [roundHalfEven, h50]
    simp only [num_to_words, if_neg h0, hf, hexp, hr]
    decide

set_option maxRecDepth 20000 in
/-- Claim C7: the PDF renderer never raises: whatever the tier outcomes, the
fallback chain returns some tier output or the hard-coded literal, and under
the assumption that a successful render tier emits a valid PDF, the result is
always non-empty bytes beginning with the PDF magic header. -/
theorem claim_C7 (tiers : List (Option String))
    (hrender : ∀ b : String, some b ∈ tiers → pdfOk b = true) :
    pdfOk (generate_invoice_pdf tiers) = true := by
  induction tiers with
  | nil => decide
  | cons t rest ih =>
    cases t with
    | some b => exact hrender b (List.mem_cons_self _ _)
    | none => exact ih (fun b hb => hrender b (List.mem_cons_of_mem _ hb))

/-- Claim C7 witness: when every render tier fails, the emergency literal is
returned and is a valid PDF. -/
theorem claim_C7_witness :
    pdfOk (generate_invoice_pdf [none, none, none]) = true :=
  claim_C7 [none, none, none] (by intro b hb; simp at hb)

set_option maxRecDepth 20000 in
/-- Claim C10: for every invoice (all of which carry the document_type
attribute), generate_gst_irp_json returns the structured error dict rather
than an IRP payload and never raises: the body references DocumentType, which
is not imported into invoice_utils.py, so the comparison raises NameError and
the handler converts it to the error dict. -/
theorem claim_C10 (inv : Invoice) (bp : BusinessProfile) (cust : Customer)
    (items : List (InvoiceItem × Product)) :
    generate_gst_irp_json inv bp cust items
      = IrpResult.errorDict "name DocumentType is not defined"
    ∧ invoiceHasDocumentTypeAttr = true := by
  constructor
  · rfl
  · rfl

lemma length_dropWhile_le_self (p : Char → Bool) (l : List Char) :
    (l.dropWhile p).length ≤ l.length := by
  induction l with
  | nil => simp
  | cons a l ih =>
    by_cases h : p a <;> simp [List.dropWhile_cons, h] <;> omega

/-- Stripping never lengthens a string. -/
lemma pyStrip_length_le (l : List Char) : (pyStrip l).length ≤ l.length := by
  unfold pyStrip
  simp only [List.length_reverse]
  calc ((l.dropWhile Char.isWhitespace).reverse.dropWhile Char.isWhitespace).length
      ≤ (l.dropWhile Char.isWhitespace).reverse.length := length_dropWhile_le_self _ _
    _ = (l.dropWhile Char.isWhitespace).length := List.length_reverse _
    _ ≤ l.length := length_dropWhile_le_self _ _

set_option maxRecDepth 20000 in
/-- Claim C8 counterexample: validate_gstin uppercases its input before any
check, so the 15-character string 29aaaaa0000a1z5, which contains lowercase
letters, is accepted for an Indian customer rather than rejected; moreover a
14-character string whose stripped form is URP is accepted for a non-Indian
customer. -/
theorem claim_C8_counterexample :
    ((validate_gstin "29aaaaa0000a1z5" "India").1 = true)
    ∧ "29aaaaa0000a1z5".length = 15
    ∧ ('a' ∈ "29aaaaa0000a1z5".data ∧ Char.isLower 'a' = true)
    ∧ ((validate_gstin "URP           " "USA").1 = true)
    ∧ "URP           ".length = 14 :=
  ⟨by decide, by decide, ⟨by decide, by decide⟩, by decide, by decide⟩

set_option maxRecDepth 20000 in
/-- Claim C8 amended: validate_gstin accepts 29AAAAA0000A1Z5 for an Indian
customer; accepts URP exactly when the country is not India; rejects every
14-character string when the country is India (for other countries a
14-character string stripping to URP is accepted); and, the input being
stripped and uppercased before validation, accepts rather than rejects a
15-character lowercase spelling of a valid GSTIN such as 29aaaaa0000a1z5. -/
theorem claim_C8_amended :
    ((validate_gstin "29AAAAA0000A1Z5" "India").1 = true)
    ∧ (∀ country : String, (validate_gstin "URP" country).1 = true ↔ country ≠ "India")
    ∧ (∀ s : String, s.length = 14 → (validate_gstin s "India").1 = false)
    ∧ ((validate_gstin "29aaaaa0000a1z5" "India").1 = true) := by
  refine ⟨by decide, ?_, ?_, by decide⟩
  · intro country
    have hURP : pyUpper (pyStrip "URP".data) = "URP".data := by decide
    by_cases hc : country = "India" <;>
      simp [validate_gstin, hURP, hc]
  · intro s hs
    by_cases h0 : s = ""
    · subst h0; simp [String.length] at hs
    · unfold validate_gstin
      rw [if_neg h0]
      by_cases hurp : pyUpper (pyStrip s.data) = "URP".data
      · simp [hurp]
      · have hdata : s.data.length = 14 := hs
        have hlen : (pyUpper (pyStrip s.data)).length ≤ 14 := by
          calc (pyUpper (pyStrip s.data)).length = (pyStrip s.data).length := by
                simp [pyUpper]
            _ ≤ s.data.length := pyStrip_length_le _
            _ = 14 := hdata
        have hne : (pyUpper (pyStrip s.data)).length ≠ 15 := by omega
        simp [hurp, hne]

set_option maxRecDepth 20000 in
/-- Claim C8 amended witness: the 14-character all-A string is rejected for
India, and URP is accepted for the USA. -/
theorem claim_C8_amended_witness :
    ("AAAAAAAAAAAAAA".length = 14)
    ∧ ((validate_gstin "AAAAAAAAAAAAAA" "India").1 = false)
    ∧ ("USA" ≠ "India")
    ∧ ((validate_gstin "URP" "USA").1 = true) :=
  ⟨by decide, claim_C8_amended.2.2.1 "AAAAAAAAAAAAAA" (by decide), by decide,
    (claim_C8_amended.2.1 "USA").mpr (by decide)⟩

/-- Python round moves its argument by at most one half. -/
lemma abs_roundHalfEven_sub (q : ℚ) : |(roundHalfEven q : ℚ) - q| ≤ 1 / 2 := by
  have h1 : ((⌊q⌋ : ℚ)) ≤ q := Int.floor_le q
  have h2 : q < (⌊q⌋ : ℚ) + 1 := Int.lt_floor_add_one q
  unfold roundHalfEven
  split_ifs with ha hb hc <;>
    rw [abs_le] <;> constructor <;> push_cast <;> linarith

/-- Rounding to 2 decimals moves a value by at most 1 over 200. -/
lemma abs_round2_sub (q : ℚ) : |round2 q - q| ≤ 1 / 200 := by
  have h := abs_roundHalfEven_sub (100 * q)
  have heq : round2 q - q = ((roundHalfEven (100 * q) : ℚ) - 100 * q) / 100 := by
    unfold round2; ring
  rw [heq, abs_div, show |(100 : ℚ)| = 100 from by norm_num]
  linarith

/-- A successful optionMapM preserves length. -/
lemma optionMapM_length (f : α → Option β) : ∀ (l : List α) (l2 : List β),
    optionMapM f l = some l2 → l2.length = l.length := by
  intro l
  induction l with
  | nil =>
    intro l2 h
    simp only [optionMapM] at h
    simp [← Option.some.inj h]
  | cons a as ih =>
    intro l2 h
    simp only [optionMapM] at h
    cases hfa : f a with
    | none => rw [hfa] at h; simp at h
    | some b =>
      rw [hfa] at h
      cases hrec : optionMapM f as with
      | none => rw [hrec] at h; simp at h
      | some bs =>
        rw [hrec] at h
        have h2 : b :: bs = l2 := by simpa using h
        subst h2
        simp [ih bs hrec]

/-- The import maps the payload ValDtls onto the invoice aggregates
unchanged, and one item per ItemList entry. -/
lemma nic_import_vals (j : NicJson) :
    (nic_json_to_invoice j).subtotal = j.valDtls.assVal
    ∧ (nic_json_to_invoice j).total = j.valDtls.totInvVal
    ∧ (nic_json_to_invoice j).tax_amount
        = j.valDtls.cgstVal + j.valDtls.sgstVal + j.valDtls.igstVal
    ∧ (nic_json_to_invoice j).items.length = j.itemList.length := by
  simp [nic_json_to_invoice]

/-- Claim C4: exporting a computed invoice to NIC JSON and importing that JSON
back yields an invoice whose subtotal and total are the 2-decimal roundings of
the originals (within 1 over 200), whose tax_amount is within 3 over 200 of
the original, and which has the same number of line items. The tax hypothesis
is the aggregate identity every computed invoice satisfies: tax_amount is the
sum of the populated jurisdiction totals. -/
theorem claim_C4 (inv : Invoice) (bp : BusinessProfile) (cust : Customer)
    (pairs : List (InvoiceItem × Product)) (j : NicJson)
    (hexp : invoice_to_nic_json inv bp cust pairs = some j)
    (htax : inv.tax_amount
      = inv.cgst_total.getD 0 + inv.sgst_total.getD 0 + inv.igst_total.getD 0) :
    ((nic_json_to_invoice j).subtotal = round2 inv.subtotal
      ∧ |(nic_json_to_invoice j).subtotal - inv.subtotal| ≤ 1 / 200)
    ∧ ((nic_json_to_invoice j).total = round2 inv.total
      ∧ |(nic_json_to_invoice j).total - inv.total| ≤ 1 / 200)
    ∧ |(nic_json_to_invoice j).tax_amount - inv.tax_amount| ≤ 3 / 200
    ∧ (nic_json_to_invoice j).items.length = pairs.length := by
  simp only [invoice_to_nic_json] at hexp
  cases hL : optionMapM (fun pr => nicItemOf inv.tax_type (pr.1 + 1) pr.2) pairs.enum with
  | none => rw [hL] at hexp; simp at hexp
  | some L =>
    rw [hL] at hexp
    simp only [Option.bind_eq_bind, Option.some_bind, Option.pure_def,
      Option.some.injEq] at hexp
    have hlen : L.length = pairs.length := by
      have h := optionMapM_length _ _ _ hL
      simpa using h
    have hval : j.valDtls
        = { assVal := round2 inv.subtotal, cgstVal := round2 (inv.cgst_total.getD 0),
            sgstVal := round2 (inv.sgst_total.getD 0),
            igstVal := round2 (inv.igst_total.getD 0),
            totInvVal := round2 inv.total, rndOffAmt := round2 inv.round_off } := by
      rw [← hexp]
    have hitems : j.itemList = L := by rw [← hexp]
    obtain ⟨hv1, hv2, hv3, hv4⟩ := nic_import_vals j
    refine ⟨⟨?_, ?_⟩, ⟨?_, ?_⟩, ?_, ?_⟩
    · rw [hv1, hval]
    · rw [hv1, hval]
      exact abs_round2_sub inv.subtotal
    · rw [hv2, hval]
    · rw [hv2, hval]
      exact abs_round2_sub inv.total
    · rw [hv3, hval]
      have hc := abs_round2_sub (inv.cgst_total.getD 0)
      have hs := abs_round2_sub (inv.sgst_total.getD 0)
      have hi := abs_round2_sub (inv.igst_total.getD 0)
      have h3 := abs_add_three
        (round2 (inv.cgst_total.getD 0) - inv.cgst_total.getD 0)
        (round2 (inv.sgst_total.getD 0) - inv.sgst_total.getD 0)
        (round2 (inv.igst_total.getD 0) - inv.igst_total.getD 0)
      have heq : round2 (inv.cgst_total.getD 0) + round2 (inv.sgst_total.getD 0)
            + round2 (inv.igst_total.getD 0) - inv.tax_amount
          = round2 (inv.cgst_total.getD 0) - inv.cgst_total.getD 0
            + (round2 (inv.sgst_total.getD 0) - inv.sgst_total.getD 0)
            + (round2 (inv.igst_total.getD 0) - inv.igst_total.getD 0) := by
        rw [htax]; ring
      rw [heq]
      linarith
    · rw [hv4, hitems, hlen]

/-- A computed IGST invoice fixture for the round-trip witness. -/
def invC4 : Invoice :=
  { invoice_number := "AC-INV-26-00007", invoice_date := dateEx,
    subtotal := 100, tax_amount := 18, total := 118, tax_type := .IGST,
    cgst_total := none, sgst_total := none, igst_total := some 18,
    status := .DRAFT, payment_status := .UNPAID, document_type := .INVOICE,
    supply_type := .B2B, discount_amount := 0, round_off := 0, irn := none,
    is_imported := false, items := [] }

/-- An all-blank NIC document, used only as an Option.getD fallback. -/
def nicJsonDefault : NicJson :=
  { supTyp := "", docNo := "", docDt := { day := 0, month := 0, year := 0 },
    seller := { gstin := "", lglNm := "", addr1 := "", loc := "", pin := "",
                stcd := "", ph := "", em := "" },
    buyer := { gstin := "", lglNm := "", pos := "", addr1 := "", loc := "",
               pin := "", stcd := "", ph := "", em := "" },
    itemList := [],
    valDtls := { assVal := 0, cgstVal := 0, sgstVal := 0, igstVal := 0,
                 totInvVal := 0, rndOffAmt := 0 } }

/-- Claim C4 witness: the fixture invoice exports successfully, satisfies the
aggregate tax identity, and its re-import preserves the item count and yields
the rounded subtotal. -/
theorem claim_C4_witness :
    (invoice_to_nic_json invC4 bpEx custSame []).isSome
    ∧ (invC4.tax_amount
        = invC4.cgst_total.getD 0 + invC4.sgst_total.getD 0 + invC4.igst_total.getD 0)
    ∧ ((nic_json_to_invoice
          ((invoice_to_nic_json invC4 bpEx custSame []).getD nicJsonDefault)).subtotal
        = round2 invC4.subtotal)
    ∧ ((nic_json_to_invoice
          ((invoice_to_nic_json invC4 bpEx custSame []).getD nicJsonDefault)).items.length
        = ([] : List (InvoiceItem × Product)).length) := by
  have h := claim_C4 invC4 bpEx custSame []
    ((invoice_to_nic_json invC4 bpEx custSame []).getD nicJsonDefault)
    rfl (by norm_num [invC4])
  exact ⟨rfl, by norm_num [invC4], h.1.1, h.2.2.2⟩

end GSTInvoicePro
